import Mathlib

/-!
Verification of the bt2mqtt core logic: the vendor GATT protocol decoding
(`Blind.parseBlindStatus`, `Blind.parseBlindSensors`), the passkey unlock
handshake (`Blind.onPasskeyChanged`, `Blind.unlock`), angle handling
(`Blind.setAngle`, `Blind.onAngleChanged`, `Application._onBlindAngleChanged`),
and the DeviceManager single-flight command queue (`DeviceManager.dequeue`,
`DeviceManager.reconnectDevice`).

The embedding follows the TypeScript source directly.  JavaScript numbers are
modelled as `Int`/`Nat`/`ℚ` with the 32-bit signed semantics of the bitwise
operators made explicit; `Buffer`s are `List Nat` of byte values; fallible
reads return `Option`; thrown errors are `Except`.
-/

namespace Bt2Mqtt

/-! ## JavaScript primitives -/

/-- The low 32 bits of a JS number that is already an integer, as a bit
pattern (`ToUint32`).  Both operands of the JS `&` operator are reduced to
this form. -/
def bits32 (x : Int) : Nat := (x % (2 ^ 32 : Int)).toNat

/-- Reinterpret a 32-bit pattern as a signed 32-bit integer, which is how JS
presents the result of a bitwise operator. -/
def int32OfBits (n : Nat) : Int :=
  if n < 2 ^ 31 then (n : Int) else (n : Int) - 2 ^ 32

/-- The JS bitwise AND operator: `ToInt32` both operands, AND the bit
patterns, return the result as a *signed* 32-bit integer. -/
def jsAnd (a b : Int) : Int := int32OfBits (Nat.land (bits32 a) (bits32 b))

/-- `Buffer.readUInt8(off)`: a single byte, or failure when out of range. -/
def readUInt8 (bytes : List Nat) (off : Nat) : Option Nat := bytes.get? off

/-- `Buffer.readUInt16LE(off)`. -/
def readUInt16LE (bytes : List Nat) (off : Nat) : Option Nat :=
  match bytes.get? off, bytes.get? (off + 1) with
  | some b0, some b1 => some (b0 + 256 * b1)
  | _, _ => none

/-- `Buffer.readUInt32LE(off)`. -/
def readUInt32LE (bytes : List Nat) (off : Nat) : Option Nat :=
  match bytes.get? off, bytes.get? (off + 1), bytes.get? (off + 2), bytes.get? (off + 3) with
  | some b0, some b1, some b2, some b3 =>
      some (b0 + 256 * b1 + 65536 * b2 + 16777216 * b3)
  | _, _, _, _ => none

/-- One lowercase hex digit, as produced by `Buffer.toString("hex")`. -/
def hexDigit (n : Nat) : Char :=
  if n < 10 then Char.ofNat (48 + n) else Char.ofNat (87 + n)

/-- `Buffer.toString("hex")`: two lowercase hex digits per byte. -/
def bytesToHex (bytes : List Nat) : String :=
  String.mk (bytes.foldr (fun b acc => hexDigit (b / 16 % 16) :: hexDigit (b % 16) :: acc) [])

/-- The numeric value of a hex digit accepted by `Buffer.from(s, "hex")`. -/
def hexDigitVal (c : Char) : Option Nat :=
  if 48 ≤ c.toNat ∧ c.toNat ≤ 57 then some (c.toNat - 48)
  else if 97 ≤ c.toNat ∧ c.toNat ≤ 102 then some (c.toNat - 87)
  else if 65 ≤ c.toNat ∧ c.toNat ≤ 70 then some (c.toNat - 55)
  else none

/-- `Buffer.from(s, "hex")`: decode hex digit pairs, stopping at the first
invalid character (and dropping a trailing unpaired digit). -/
def hexToBytes : List Char → List Nat
  | c1 :: c2 :: rest =>
      match hexDigitVal c1, hexDigitVal c2 with
      | some hi, some lo => (16 * hi + lo) :: hexToBytes rest
      | _, _ => []
  | _ => []

/-- ASCII lowering of one character, as `String.prototype.toLowerCase`
behaves on the ASCII range (hex strings only contain ASCII). -/
def asciiLower (c : Char) : Char :=
  if 65 ≤ c.toNat ∧ c.toNat ≤ 90 then Char.ofNat (c.toNat + 32) else c

/-- `String.prototype.toLowerCase` restricted to ASCII content. -/
def jsToLower (s : String) : String := String.mk (s.toList.map asciiLower)

/-- Helper for `jsIncludes`: does the needle occur starting at any position? -/
def strIncludesAux (pat : List Char) : List Char → Bool
  | [] => pat.isPrefixOf ([] : List Char)
  | c :: rest => pat.isPrefixOf (c :: rest) || strIncludesAux pat rest

/-- `String.prototype.includes`: substring containment. -/
def jsIncludes (s pat : String) : Bool := strIncludesAux pat.toList s.toList

/-! ## Constants (libraries/msblinds/src/Constants.ts)

The flag constants are plain JS number literals, hence non-negative
integers; in particular `IS_PASSKEY_VALID` is the *positive* number
`2147483648`. -/

def MIN_ANGLE : Int := 0
def MAX_ANGLE : Int := 200

def IS_REVERSED : Int := 0x00000001
def IS_BONDING : Int := 0x00000002
def IS_CALIBRATED : Int := 0x00010000
def HAS_SOLAR : Int := 0x00020000
def IS_CHARGING_SOLAR : Int := 0x00040000
def IS_CHARGING_USB : Int := 0x00080000
def IS_TIME_VALID : Int := 0x00100000
def UNDER_VOLTAGE_LOCKOUT : Int := 0x00200000
def IS_OVER_TEMP : Int := 0x00400000
def TEMP_OVERRIDE : Int := 0x00800000
def IS_PASSKEY_VALID : Int := 0x80000000

/-! ## Status decoding (Blind.parseBlindStatus) -/

structure BlindStatus where
  hasSolar : Bool
  isBonding : Bool
  isCalibrated : Bool
  isSolarCharging : Bool
  isUsbCharging : Bool
  isOverTemperature : Bool
  isPaired : Bool
  isPasskeyInvalid : Bool
  isPasskeyValid : Bool
  isReversed : Bool
  isTimeValid : Bool
  isUnderVoltageLockout : Bool
  tempOverride : Bool
deriving DecidableEq, Repr

/-- `Blind.parseBlindStatus`: read a 32-bit little-endian word and test each
flag with the JS expression `(status & MASK) === MASK`.  `isPaired` and
`isPasskeyInvalid` are hard-coded `false` in the source. -/
def parseBlindStatus (buffer : List Nat) : Option BlindStatus :=
  (readUInt32LE buffer 0).map fun status =>
    { hasSolar := jsAnd (status : Int) HAS_SOLAR == HAS_SOLAR
      isBonding := jsAnd (status : Int) IS_BONDING == IS_BONDING
      isCalibrated := jsAnd (status : Int) IS_CALIBRATED == IS_CALIBRATED
      isSolarCharging := jsAnd (status : Int) IS_CHARGING_SOLAR == IS_CHARGING_SOLAR
      isUsbCharging := jsAnd (status : Int) IS_CHARGING_USB == IS_CHARGING_USB
      isOverTemperature := jsAnd (status : Int) IS_OVER_TEMP == IS_OVER_TEMP
      isPaired := false
      isPasskeyInvalid := false
      isPasskeyValid := jsAnd (status : Int) IS_PASSKEY_VALID == IS_PASSKEY_VALID
      isReversed := jsAnd (status : Int) IS_REVERSED == IS_REVERSED
      isTimeValid := jsAnd (status : Int) IS_TIME_VALID == IS_TIME_VALID
      isUnderVoltageLockout := jsAnd (status : Int) UNDER_VOLTAGE_LOCKOUT == UNDER_VOLTAGE_LOCKOUT
      tempOverride := jsAnd (status : Int) TEMP_OVERRIDE == TEMP_OVERRIDE }

/-! ## Sensor decoding (Blind.parseBlindSensors) -/

structure BlindSensorState where
  batteryCharge : ℚ
  batteryPercentage : ℚ
  batteryTemperature : ℚ
  batteryVoltage : ℚ
  interiorTemperature : ℚ
  illuminance : ℚ
  solarPanelVoltage : ℚ
deriving DecidableEq, Repr

/-- `Blind.parseBlindSensors`: fixed-offset little-endian reads, with the
three temperature/illuminance words divided by 10 (JS `/` is exact here,
modelled in `ℚ`). -/
def parseBlindSensors (sensorState : List Nat) : Option BlindSensorState :=
  match readUInt8 sensorState 0, readUInt16LE sensorState 2, readUInt16LE sensorState 4,
        readUInt16LE sensorState 6, readUInt16LE sensorState 8, readUInt16LE sensorState 10,
        readUInt16LE sensorState 12 with
  | some pct, some volt, some charge, some solar, some intTemp, some batTemp, some lux =>
      some { batteryPercentage := (pct : ℚ)
             batteryVoltage := (volt : ℚ)
             batteryCharge := (charge : ℚ)
             solarPanelVoltage := (solar : ℚ)
             interiorTemperature := (intTemp : ℚ) / 10
             batteryTemperature := (batTemp : ℚ) / 10
             illuminance := (lux : ℚ) / 10 }
  | _, _, _, _, _, _, _ => none

/-! ## Angle writes (Blind.setAngle / Blind.isValidAngle) -/

inductive GattWriteMode
  | withResponse
  | withoutResponse
deriving DecidableEq, Repr

structure GattWrite where
  bytes : List Nat
  mode : GattWriteMode
deriving DecidableEq, Repr

/-- `Blind.isValidAngle`: `value >= MIN_ANGLE && value <= MAX_ANGLE`. -/
def isValidAngle (value : Int) : Bool :=
  decide (MIN_ANGLE ≤ value) && decide (value ≤ MAX_ANGLE)

/-- `Buffer.from([v])` keeps the low 8 bits of the value. -/
def jsByte (v : Int) : Nat := (v % 256).toNat

/-- `Blind.setAngle`: throw on an invalid angle, otherwise (when the Angle
characteristic is bound) enqueue a single one-byte `writeValueWithResponse`;
with no bound characteristic it only logs a warning. -/
def setAngle (value : Int) (hasAngleCharacteristic : Bool) : Except String (List GattWrite) :=
  if isValidAngle value = false then
    Except.error ("Invalid angle value: " ++ toString value)
  else if hasAngleCharacteristic then
    Except.ok [{ bytes := [jsByte value], mode := GattWriteMode.withResponse }]
  else
    Except.ok []

/-- Did the call throw? -/
def isErr {α : Type} : Except String α → Bool
  | Except.error _ => true
  | Except.ok _ => false

/-! ## Angle notification handling (Blind.onAngleChanged) -/

/-- `Blind.onAngleChanged`: out-of-range bytes reset the stored angle to -1
without emitting; an `angle-changed` event fires only for an in-range value
that differs from the stored one.  Returns the new stored angle and whether
the event was emitted. -/
def onAngleChanged (storedAngle : Int) (b : Nat) : Int × Bool :=
  if isValidAngle (b : Int) = false then (-1, false)
  else if (b : Int) = storedAngle then (storedAngle, false)
  else ((b : Int), true)

/-! ## Bridge angle publication (Application._onBlindAngleChanged) -/

/-- The bridge's angle rounding: snap to 200 from 190 up, to 0 from 10 down. -/
def roundedAngle (angle : Int) : Int :=
  if 190 ≤ angle then 200 else if angle ≤ 10 then 0 else angle

/-- `Application._onBlindAngleChanged`: publish the rounded angle on the
tilt/state topic and a synthetic "open"/"closed" on the state topic. -/
def onBlindAngleChanged (angle : Int) : Int × String :=
  (roundedAngle angle,
   if roundedAngle angle ≤ 10 ∨ 190 ≤ roundedAngle angle then "closed" else "open")

/-! ## Passkey write payload (Blind.setPasskey) -/

/-- The hex-string transformation inside `Blind.setPasskey`'s queued
command: length-12 passkeys get "01" appended, others lose their first two
characters and get "01" appended. -/
def setPasskeyTransform (passkey : String) : String :=
  if passkey.length = 12 then passkey ++ "01" else passkey.drop 2 ++ "01"

/-- `Blind.setPasskey`: the bytes written (with response) to the Passkey
characteristic, i.e. `Buffer.from(transformed, "hex")`. -/
def setPasskey (passkey : String) : List Nat :=
  hexToBytes (setPasskeyTransform passkey).toList

/-! ## Reconnect policy (DeviceManager.reconnectDevice) -/

inductive ReconnectAction
  | skip
  | deviceAdded
  | discovery
deriving DecidableEq, Repr

/-- `DeviceManager.reconnectDevice`: attempt a reconnect when
`maxConnectRetries === -1 || !counts[address] || counts[address] <= maxConnectRetries`
(a missing counter and a zero counter are both falsy, so the counter is a
`Nat` with 0 meaning absent).  On an attempt the counter is incremented and
either a direct "device-added" re-entry (device still available) or a fresh
discovery round is scheduled. -/
def reconnectDevice (maxConnectRetries : Int) (retryCount : Nat) (stillAvailable : Bool) :
    ReconnectAction × Nat :=
  if maxConnectRetries = -1 ∨ retryCount = 0 ∨ (retryCount : Int) ≤ maxConnectRetries then
    ((if stillAvailable then ReconnectAction.deviceAdded else ReconnectAction.discovery),
     retryCount + 1)
  else
    (ReconnectAction.skip, retryCount)

/-! ## DeviceManager command queue (DeviceManager.executeCommand / dequeue) -/

structure QueuedCommand where
  name : String
  maxRetries : Nat
  retryCount : Nat
deriving DecidableEq, Repr

inductive CmdOutcome
  | ok
  | err (msg : String)
deriving DecidableEq, Repr

structure ManagerState where
  queue : List QueuedCommand
  isExecuting : Bool
  isDisposed : Bool
deriving DecidableEq, Repr

/-- The synchronous prefix of `DeviceManager.dequeue`, up to the `await` of
the popped command: bail out when disposed, executing, or empty; otherwise
shift the head, increment its `retryCount`, and set `isExecuting`. -/
def dequeueBegin (s : ManagerState) : Option (QueuedCommand × ManagerState) :=
  if s.isDisposed then none
  else
    match s.isExecuting, s.queue with
    | false, c :: rest =>
        some ({ c with retryCount := c.retryCount + 1 },
              { s with queue := rest, isExecuting := true })
    | _, _ => none

/-- The catch/finally suffix of `DeviceManager.dequeue`, applied to the
manager state at completion time: a failure whose message does not contain
"Not connected" unshifts the command back at the head while
`retryCount < maxRetries`; `isExecuting` is always cleared. -/
def dequeueFinish (c : QueuedCommand) (outcome : CmdOutcome) (s : ManagerState) : ManagerState :=
  { s with
    queue :=
      match outcome with
      | CmdOutcome.ok => s.queue
      | CmdOutcome.err msg =>
          if jsIncludes msg "Not connected" then s.queue
          else if c.retryCount < c.maxRetries then c :: s.queue
          else s.queue
    isExecuting := false }

/-- One full `dequeue()` invocation in which the popped command's `await`
yields `outcome` with no interleaved queue activity.  The boolean reports
whether the deferred `setImmediate` re-entry was scheduled. -/
def dequeueRun (s : ManagerState) (outcome : CmdOutcome) : ManagerState × Bool :=
  match dequeueBegin s with
  | none => (s, false)
  | some (c, s1) => (dequeueFinish c outcome s1, true)

/-- The manager together with the multiset of commands whose invocation has
started and not yet completed. -/
structure SysState where
  mgr : ManagerState
  inFlight : List QueuedCommand
deriving DecidableEq, Repr

def sysInit : SysState := ⟨⟨[], false, false⟩, []⟩

/-- Interleaved small-step semantics of the queue: `executeCommand` pushes,
a `dequeue` call runs its synchronous prefix, an in-flight command completes
(running the catch/finally suffix on the *current* state), and `dispose`
clears the queue.  Steps may interleave freely, as the JS event loop allows
between `await` points. -/
inductive SysStep : SysState → SysState → Prop
  | enqueue (s : SysState) (name : String) (maxRetries : Nat) :
      SysStep s ⟨{ s.mgr with queue := s.mgr.queue ++ [⟨name, maxRetries, 0⟩] }, s.inFlight⟩
  | start (s : SysState) (c : QueuedCommand) (m : ManagerState) :
      dequeueBegin s.mgr = some (c, m) → SysStep s ⟨m, s.inFlight ++ [c]⟩
  | finish (s : SysState) (c : QueuedCommand) (rest : List QueuedCommand)
      (outcome : CmdOutcome) :
      s.inFlight = c :: rest → SysStep s ⟨dequeueFinish c outcome s.mgr, rest⟩
  | dispose (s : SysState) :
      SysStep s ⟨⟨[], s.mgr.isExecuting, true⟩, s.inFlight⟩

inductive SysReach : SysState → Prop
  | init : SysReach sysInit
  | step {s t : SysState} : SysReach s → SysStep s t → SysReach t

/-- The single-flight invariant: at most one command is in flight, and none
is unless `isExecuting` is set. -/
def SingleFlight (s : SysState) : Prop :=
  s.inFlight.length ≤ 1 ∧ (s.mgr.isExecuting = false → s.inFlight = [])

/-! ## Blind unlock state (Blind.onPasskeyChanged and friends) -/

structure BlindUnlockState where
  passkey : Option String
  isUnlocked : Bool
  unlockAttempts : Nat
  unlockTimer : Bool
deriving DecidableEq, Repr

/-- Field initializers of the `Blind` class: no passkey echo seen, locked,
zero attempts, no timer. -/
def blindInit : BlindUnlockState := ⟨none, false, 0, false⟩

/-- The unlock test in `Blind.onPasskeyChanged`:
`passkey && passkey.toLowerCase() === configured.toLowerCase() + "00"`. -/
def matchesPasskey (configured hex : String) : Bool :=
  !hex.isEmpty && (jsToLower hex == jsToLower configured ++ "00")

/-- `Blind.onPasskeyChanged`: ignore a notification equal to the stored
echo; otherwise store it, emit `passkey-changed`, and on a configured-passkey
match set `isUnlocked`, reset the attempt counter, clear the unlock timer and
emit `unlocked`; on a mismatch clear `isUnlocked`. -/
def onPasskeyChanged (configured : String) (s : BlindUnlockState) (buffer : List Nat) :
    BlindUnlockState × List String :=
  let hex := bytesToHex buffer
  if s.passkey == some hex then (s, [])
  else if matchesPasskey configured hex then
    ({ passkey := some hex, isUnlocked := true, unlockAttempts := 0, unlockTimer := false },
     ["passkey-changed", "unlocked"])
  else
    ({ passkey := some hex, isUnlocked := false, unlockAttempts := s.unlockAttempts,
       unlockTimer := s.unlockTimer },
     ["passkey-changed"])

/-- The operations of a `Blind` instance that touch the unlock state:
Passkey notifications, the `isUnlocked` reset in `onParentConnect`, the
cleanup in `_disconnect`, the attempt bump / failure branch of `unlock()`,
and `_startUnlockTimerIfLocked`. -/
inductive BlindOp
  | passkeyNotif (buffer : List Nat)
  | parentConnect
  | disconnectCleanup
  | unlockAttempt
  | startUnlockTimer
deriving DecidableEq, Repr

def blindStep (configured : String) (maxUnlockRetries : Nat) (s : BlindUnlockState) :
    BlindOp → BlindUnlockState × List String
  | BlindOp.passkeyNotif buffer => onPasskeyChanged configured s buffer
  | BlindOp.parentConnect => ({ s with isUnlocked := false }, [])
  | BlindOp.disconnectCleanup =>
      ({ s with unlockTimer := false, isUnlocked := false, unlockAttempts := 0 }, [])
  | BlindOp.unlockAttempt =>
      if s.unlockAttempts < maxUnlockRetries then
        ({ s with unlockAttempts := s.unlockAttempts + 1, isUnlocked := false }, [])
      else
        ({ s with unlockTimer := false }, ["unlock-failed"])
  | BlindOp.startUnlockTimer =>
      if !s.isUnlocked && !s.unlockTimer && decide (s.unlockAttempts < maxUnlockRetries) then
        ({ s with unlockTimer := true }, [])
      else (s, [])

def runBlind (configured : String) (maxUnlockRetries : Nat) :
    BlindUnlockState → List BlindOp → BlindUnlockState
  | s, [] => s
  | s, op :: rest =>
      runBlind configured maxUnlockRetries (blindStep configured maxUnlockRetries s op).1 rest

/-- In decoded status words the `IS_PASSKEY_VALID` test can never hold: the
JS `&` result carrying bit 31 is the negative signed 32-bit value
`-2147483648`, while the constant is the positive number `2147483648`. -/
theorem jsAnd_passkey_mask_ne (w : Nat) :
    (jsAnd (w : Int) IS_PASSKEY_VALID == IS_PASSKEY_VALID) = false := by
  have hmask : bits32 IS_PASSKEY_VALID = 2 ^ 31 := by decide
  have h : Nat.land (bits32 (w : Int)) (2 ^ 31) =
      (Nat.testBit (bits32 (w : Int)) 31).toNat * 2 ^ 31 := Nat.and_two_pow _ 31
  rw [jsAnd, hmask, h]
  rcases Bool.eq_false_or_eq_true (Nat.testBit (bits32 (w : Int)) 31) with hb | hb <;>
    rw [hb] <;> norm_num [int32OfBits, IS_PASSKEY_VALID]

/-- C1: decoding the Status bytes `01 00 02 80` (word `0x80020001`) yields
`isReversed = true`, `hasSolar = true` and every other flag `false` —
including `isPasskeyValid`, although the unsigned mask test
`word AND 0x80000000 == 0x80000000` holds for this word.  The JS expression
`(status & IS_PASSKEY_VALID) === IS_PASSKEY_VALID` evaluates the AND as a
signed 32-bit value (`-2147483648`), so it never equals the positive
constant: the code's `isPasskeyValid` is identically `false`, contradicting
the spec's decode table and its Status-decode scenario. -/
theorem parseBlindStatus_passkey_bit :
    parseBlindStatus [0x01, 0x00, 0x02, 0x80] =
      some { hasSolar := true, isBonding := false, isCalibrated := false,
             isSolarCharging := false, isUsbCharging := false, isOverTemperature := false,
             isPaired := false, isPasskeyInvalid := false, isPasskeyValid := false,
             isReversed := true, isTimeValid := false, isUnderVoltageLockout := false,
             tempOverride := false } ∧
    Nat.land 0x80020001 0x80000000 = 0x80000000 ∧
    jsAnd (0x80020001 : Int) IS_PASSKEY_VALID = -(0x80000000 : Int) ∧
    (∀ w : Nat, (jsAnd (w : Int) IS_PASSKEY_VALID == IS_PASSKEY_VALID) = false) :=
  ⟨by decide, by decide, by decide, jsAnd_passkey_mask_ne⟩

/-- C5: for every buffer of at least 14 bytes, `parseBlindSensors` reads
battery percentage at byte 0, u16LE words at offsets 2/4/6, and the three
tenth-scaled u16LE words at offsets 8/10/12; the spec's example bytes decode
to 85, 3780, 0, 0, 22.4, 21.2 and 5.0. -/
theorem parseBlindSensors_fields :
    (∀ (b0 b1 b2 b3 b4 b5 b6 b7 b8 b9 b10 b11 b12 b13 : Nat) (rest : List Nat),
       parseBlindSensors
           (b0 :: b1 :: b2 :: b3 :: b4 :: b5 :: b6 :: b7 ::
            b8 :: b9 :: b10 :: b11 :: b12 :: b13 :: rest) =
         some { batteryPercentage := (b0 : ℚ)
                batteryVoltage := (b2 : ℚ) + 256 * (b3 : ℚ)
                batteryCharge := (b4 : ℚ) + 256 * (b5 : ℚ)
                solarPanelVoltage := (b6 : ℚ) + 256 * (b7 : ℚ)
                interiorTemperature := ((b8 : ℚ) + 256 * (b9 : ℚ)) / 10
                batteryTemperature := ((b10 : ℚ) + 256 * (b11 : ℚ)) / 10
                illuminance := ((b12 : ℚ) + 256 * (b13 : ℚ)) / 10 }) ∧
    parseBlindSensors [0x55, 0x00, 0xC4, 0x0E, 0x00, 0x00, 0x00, 0x00,
                       0xE0, 0x00, 0xD4, 0x00, 0x32, 0x00] =
      some { batteryPercentage := 85, batteryVoltage := 3780, batteryCharge := 0,
             solarPanelVoltage := 0, interiorTemperature := (224 : ℚ) / 10,
             batteryTemperature := (212 : ℚ) / 10, illuminance := 5 } := by
  constructor
  · intro b0 b1 b2 b3 b4 b5 b6 b7 b8 b9 b10 b11 b12 b13 rest
    simp only [parseBlindSensors, readUInt8, readUInt16LE, List.get?,
      BlindSensorState.mk.injEq, Option.some.injEq]
    refine ⟨?_, ?_, ?_, ?_, ?_, ?_, ?_⟩ <;> push_cast <;> ring
  · simp only [parseBlindSensors, readUInt8, readUInt16LE, List.get?,
      BlindSensorState.mk.injEq, Option.some.injEq]
    norm_num

/-- C7: `setAngle` throws exactly when the value is outside `[0, 200]`; at
the boundaries -1 and 201 it fails while 0 and 200 enqueue the single
one-byte write-with-response. -/
theorem setAngle_validation :
    (∀ (v : Int) (hasChar : Bool), isErr (setAngle v hasChar) = true ↔ (v < 0 ∨ 200 < v)) ∧
    (∀ v : Int, 0 ≤ v → v ≤ 200 →
        setAngle v true =
          Except.ok [{ bytes := [v.toNat], mode := GattWriteMode.withResponse }]) ∧
    isErr (setAngle (-1) true) = true ∧ isErr (setAngle 201 true) = true ∧
    setAngle 0 true = Except.ok [{ bytes := [0], mode := GattWriteMode.withResponse }] ∧
    setAngle 200 true = Except.ok [{ bytes := [200], mode := GattWriteMode.withResponse }] := by
  refine ⟨?_, ?_, by decide, by decide, rfl, rfl⟩
  · intro v hasChar
    by_cases h : 0 ≤ v ∧ v ≤ 200
    · have hv : isValidAngle v = true := by
        simp only [isValidAngle, MIN_ANGLE, MAX_ANGLE, Bool.and_eq_true, decide_eq_true_eq]
        exact ⟨h.1, h.2⟩
      cases hasChar <;> simp [setAngle, hv, isErr] <;> omega
    · have hv : isValidAngle v = false := by
        simp only [isValidAngle, MIN_ANGLE, MAX_ANGLE, Bool.and_eq_false_iff,
          decide_eq_false_iff_not, not_le]
        omega
      simp [setAngle, hv, isErr]
      omega
  · intro v h0 h200
    have hv : isValidAngle v = true := by
      simp only [isValidAngle, MIN_ANGLE, MAX_ANGLE, Bool.and_eq_true, decide_eq_true_eq]
      exact ⟨h0, h200⟩
    have hmod : v % 256 = v := by omega
    have hb : jsByte v = v.toNat := by unfold jsByte; rw [hmod]
    simp [setAngle, hv, hb]

/-- C7 witness: the theorem applied at 100 with its hypotheses discharged. -/
theorem setAngle_validation_witness :
    isErr (setAngle 100 true) = false ∧
    setAngle 100 true = Except.ok [{ bytes := [100], mode := GattWriteMode.withResponse }] :=
  ⟨by
    have h := setAngle_validation.1 100 true
    cases he : isErr (setAngle 100 true)
    · rfl
    · exact absurd (h.mp he) (by decide),
   setAngle_validation.2.1 100 (by decide) (by decide)⟩

/-- C8: for every in-range angle, the bridge publishes the snapped tilt
value and "closed" exactly on `[0,10] ∪ [190,200]`, "open" otherwise. -/
theorem angle_to_cover_state :
    ∀ a : Int, 0 ≤ a → a ≤ 200 →
      (onBlindAngleChanged a).1 = (if a ≤ 10 then 0 else if 190 ≤ a then 200 else a) ∧
      (onBlindAngleChanged a).2 =
        (if (0 ≤ a ∧ a ≤ 10) ∨ (190 ≤ a ∧ a ≤ 200) then "closed" else "open") := by
  intro a h0 h200
  simp only [onBlindAngleChanged, roundedAngle]
  constructor <;> split_ifs <;> first | rfl | omega

/-- C8 witness: the theorem applied at the angles 5, 100 and 195. -/
theorem angle_to_cover_state_witness :
    ((onBlindAngleChanged 5).1 = 0 ∧ (onBlindAngleChanged 5).2 = "closed") ∧
    ((onBlindAngleChanged 100).1 = 100 ∧ (onBlindAngleChanged 100).2 = "open") ∧
    ((onBlindAngleChanged 195).1 = 200 ∧ (onBlindAngleChanged 195).2 = "closed") := by
  refine ⟨⟨?_, ?_⟩, ⟨?_, ?_⟩, ⟨?_, ?_⟩⟩
  · simpa using (angle_to_cover_state 5 (by decide) (by decide)).1
  · simpa using (angle_to_cover_state 5 (by decide) (by decide)).2
  · simpa using (angle_to_cover_state 100 (by decide) (by decide)).1
  · simpa using (angle_to_cover_state 100 (by decide) (by decide)).2
  · simpa using (angle_to_cover_state 195 (by decide) (by decide)).1
  · simpa using (angle_to_cover_state 195 (by decide) (by decide)).2

/-- C10: a decoded angle byte above 200 resets the stored angle to -1 with
no event; the event fires exactly for an in-range byte differing from the
stored angle, and then the stored angle becomes that byte. -/
theorem onAngleChanged_range :
    ∀ (stored : Int) (b : Nat), b < 256 →
      (200 < b → onAngleChanged stored b = (-1, false)) ∧
      ((onAngleChanged stored b).2 = true ↔ (b ≤ 200 ∧ (b : Int) ≠ stored)) ∧
      ((onAngleChanged stored b).2 = true → (onAngleChanged stored b).1 = (b : Int)) := by
  intro stored b _
  by_cases hv : b ≤ 200
  · have h : isValidAngle (b : Int) = true := by
      simp only [isValidAngle, MIN_ANGLE, MAX_ANGLE, Bool.and_eq_true, decide_eq_true_eq]
      constructor <;> omega
    by_cases he : (b : Int) = stored
    · subst he
      have e : onAngleChanged ((b : Nat) : Int) b = ((b : Int), false) := by
        simp [onAngleChanged, h]
      refine ⟨fun hgt => absurd hgt (by omega), ?_, ?_⟩ <;> rw [e] <;> simp
    · have e : onAngleChanged stored b = ((b : Int), true) := by
        simp [onAngleChanged, h, he]
      refine ⟨fun hgt => absurd hgt (by omega), ?_, ?_⟩ <;> rw [e] <;> simp [he, hv]
  · have h : isValidAngle (b : Int) = false := by
      simp only [isValidAngle, MIN_ANGLE, MAX_ANGLE, Bool.and_eq_false_iff,
        decide_eq_false_iff_not, not_le]
      omega
    have e : onAngleChanged stored b = (-1, false) := by
      simp [onAngleChanged, h]
    refine ⟨fun _ => e, ?_, ?_⟩ <;> rw [e] <;> simp
    intro hb
    omega

/-- C10 witness: the theorem applied with stored angle 50 at the bytes 201
and 100. -/
theorem onAngleChanged_range_witness :
    onAngleChanged 50 201 = (-1, false) ∧ onAngleChanged 50 100 = (100, true) :=
  ⟨(onAngleChanged_range 50 201 (by decide)).1 (by decide),
   by
    have h2 := (onAngleChanged_range 50 100 (by decide)).2.1.mpr ⟨by decide, by decide⟩
    have h1 := (onAngleChanged_range 50 100 (by decide)).2.2 h2
    have : onAngleChanged 50 100 = ((onAngleChanged 50 100).1, (onAngleChanged 50 100).2) := rfl
    rw [this, h1, h2]
    norm_num⟩

/-- C6: the passkey write payload is the hex decoding of the configured
passkey with "01" appended when the string has length 12, and with the first
two characters dropped and "01" appended otherwise; passkey "000102030405"
yields the 7-byte write `00 01 02 03 04 05 01`. -/
theorem setPasskey_payload :
    (∀ pk : String, pk.length = 12 → setPasskey pk = hexToBytes (pk ++ "01").toList) ∧
    (∀ pk : String, pk.length ≠ 12 → setPasskey pk = hexToBytes (pk.drop 2 ++ "01").toList) ∧
    setPasskey "000102030405" = [0x00, 0x01, 0x02, 0x03, 0x04, 0x05, 0x01] := by
  refine ⟨?_, ?_, by decide⟩
  · intro pk h
    simp [setPasskey, setPasskeyTransform, h]
  · intro pk h
    simp [setPasskey, setPasskeyTransform, h]

/-- C6 witness: the theorem applied to the length-12 passkey of the spec's
scenario and to a length-4 passkey. -/
theorem setPasskey_payload_witness :
    setPasskey "000102030405" = hexToBytes ("000102030405" ++ "01").toList ∧
    setPasskey "0102" = hexToBytes ("0102".drop 2 ++ "01").toList ∧
    setPasskey "000102030405" = [0x00, 0x01, 0x02, 0x03, 0x04, 0x05, 0x01] :=
  ⟨setPasskey_payload.1 "000102030405" (by decide),
   setPasskey_payload.2.1 "0102" (by decide),
   setPasskey_payload.2.2⟩

/-- C9 (amended): `reconnectDevice` increments the counter and schedules a
reconnect exactly when the cap is -1, or the prior counter is absent/zero,
or the prior counter is at most the cap; with cap -1 an attempt always
happens, and an attempt re-enters directly when the address is still
available and restarts discovery otherwise. -/
theorem reconnectDevice_policy :
    ∀ (cap : Int) (count : Nat) (avail : Bool),
      ((reconnectDevice cap count avail).1 ≠ ReconnectAction.skip ↔
        (cap = -1 ∨ count = 0 ∨ (count : Int) ≤ cap)) ∧
      (cap = -1 →
        reconnectDevice cap count avail =
          ((if avail then ReconnectAction.deviceAdded else ReconnectAction.discovery),
           count + 1)) ∧
      ((cap = -1 ∨ count = 0 ∨ (count : Int) ≤ cap) →
        (reconnectDevice cap count avail).2 = count + 1 ∧
        (reconnectDevice cap count avail).1 =
          (if avail then ReconnectAction.deviceAdded else ReconnectAction.discovery)) := by
  intro cap count avail
  by_cases h : cap = -1 ∨ count = 0 ∨ (count : Int) ≤ cap
  · have e : reconnectDevice cap count avail =
        ((if avail then ReconnectAction.deviceAdded else ReconnectAction.discovery),
         count + 1) := by
      simp only [reconnectDevice, if_pos h]
    refine ⟨⟨fun _ => h, fun _ => ?_⟩, fun _ => e, fun _ => ?_⟩
    · rw [e]
      cases avail <;> simp
    · rw [e]
      exact ⟨rfl, rfl⟩
  · have e : reconnectDevice cap count avail = (ReconnectAction.skip, count) := by
      simp only [reconnectDevice, if_neg h]
    refine ⟨?_, fun hc => absurd (Or.inl hc) h, fun hc => absurd hc h⟩
    rw [e]
    simp [h]

/-- C9 witness: the theorem applied at cap -1, counter 7 and at cap 2,
counter 1. -/
theorem reconnectDevice_policy_witness :
    reconnectDevice (-1) 7 true = (ReconnectAction.deviceAdded, 8) ∧
    (reconnectDevice 2 1 false).2 = 2 := by
  constructor
  · have h := (reconnectDevice_policy (-1) 7 true).2.1 rfl
    simpa using h
  · have h := ((reconnectDevice_policy 2 1 false).2.2 (Or.inr (Or.inr (by decide)))).1
    simpa using h

/-- C9 counterexample: with cap 3 and a prior counter of 3 — not "under the
configured cap" — the code still increments the counter and schedules a
direct re-entry, because its guard is `counter <= cap`. -/
theorem reconnect_cap_counterexample :
    reconnectDevice 3 3 true = (ReconnectAction.deviceAdded, 4) ∧
    ¬((3 : Int) = -1 ∨ (3 : Int) < 3) := by
  constructor
  · simp [reconnectDevice]
  · decide

/-- Inversion of the synchronous prefix of `dequeue`: it pops only when not
disposed, not executing, and non-empty, and then it increments the popped
command's retry count and raises `isExecuting`. -/
theorem dequeueBegin_spec {s : ManagerState} {c : QueuedCommand} {m : ManagerState}
    (h : dequeueBegin s = some (c, m)) :
    s.isDisposed = false ∧ s.isExecuting = false ∧
    ∃ c0 rest, s.queue = c0 :: rest ∧
      c = { c0 with retryCount := c0.retryCount + 1 } ∧
      m = { s with queue := rest, isExecuting := true } := by
  obtain ⟨q, ex, d⟩ := s
  cases d
  · cases ex
    · cases q with
      | nil => simp [dequeueBegin] at h
      | cons c0 rest =>
          simp only [dequeueBegin, Bool.false_eq_true, if_false, Option.some.injEq,
            Prod.mk.injEq] at h
          exact ⟨rfl, rfl, c0, rest, rfl, h.1.symm, h.2.symm⟩
    · simp [dequeueBegin] at h
  · simp [dequeueBegin] at h

theorem singleFlight_step {s t : SysState} (hs : SingleFlight s) (h : SysStep s t) :
    SingleFlight t := by
  cases h with
  | enqueue name maxRetries => exact ⟨hs.1, hs.2⟩
  | start c m hb =>
      obtain ⟨hd, hex, c0, rest, hq, hc, hm⟩ := dequeueBegin_spec hb
      have hempty : s.inFlight = [] := hs.2 hex
      constructor
      · simp [hempty]
      · intro hmf
        rw [hm] at hmf
        simp at hmf
  | finish c rest outcome hin =>
      have hlen := hs.1
      rw [hin] at hlen
      simp only [List.length_cons] at hlen
      have hrest : rest = [] := List.eq_nil_of_length_eq_zero (by omega)
      exact ⟨by simp [hrest], fun _ => hrest⟩
  | dispose => exact ⟨hs.1, hs.2⟩

theorem singleFlight_reach {s : SysState} (h : SysReach s) : SingleFlight s := by
  induction h with
  | init => exact ⟨by simp [sysInit], fun _ => rfl⟩
  | step _ hstep ih => exact singleFlight_step ih hstep

/-- C2: in every reachable interleaving of `executeCommand` and `dequeue`
calls at most one command is in flight; a `dequeue` entered while
`isExecuting` is set returns without popping; popping sets `isExecuting`,
and it is cleared (only) when the invocation completes. -/
theorem dequeue_single_flight :
    (∀ s : SysState, SysReach s → s.inFlight.length ≤ 1) ∧
    (∀ (m : ManagerState) (outcome : CmdOutcome),
        m.isExecuting = true → dequeueRun m outcome = (m, false)) ∧
    (∀ (m m' : ManagerState) (c : QueuedCommand),
        dequeueBegin m = some (c, m') → m'.isExecuting = true) ∧
    (∀ (c : QueuedCommand) (outcome : CmdOutcome) (m : ManagerState),
        (dequeueFinish c outcome m).isExecuting = false) := by
  refine ⟨fun s h => (singleFlight_reach h).1, ?_, ?_, fun c o m => rfl⟩
  · intro m o hm
    have hb : dequeueBegin m = none := by
      obtain ⟨q, ex, d⟩ := m
      simp only at hm
      subst hm
      cases d <;> cases q <;> rfl
    simp [dequeueRun, hb]
  · intro m m' c h
    obtain ⟨-, -, c0, rest, -, -, hm⟩ := dequeueBegin_spec h
    rw [hm]

/-- C2 witness: the theorem applied at the initial system state, at a
manager already executing, and at concrete begin/finish states. -/
theorem dequeue_single_flight_witness :
    sysInit.inFlight.length ≤ 1 ∧
    dequeueRun ⟨[⟨"setAngle", 5, 0⟩], true, false⟩ CmdOutcome.ok =
      (⟨[⟨"setAngle", 5, 0⟩], true, false⟩, false) ∧
    (⟨[], true, false⟩ : ManagerState).isExecuting = true ∧
    (dequeueFinish ⟨"setAngle", 5, 1⟩ CmdOutcome.ok ⟨[], true, false⟩).isExecuting = false :=
  ⟨dequeue_single_flight.1 sysInit SysReach.init,
   dequeue_single_flight.2.1 _ CmdOutcome.ok rfl,
   dequeue_single_flight.2.2.1 ⟨[⟨"setAngle", 5, 0⟩], false, false⟩ _ ⟨"setAngle", 5, 1⟩ rfl,
   dequeue_single_flight.2.2.2 ⟨"setAngle", 5, 1⟩ CmdOutcome.ok ⟨[], true, false⟩⟩

/-- C3: when the popped command's invocation throws, a "Not connected"
message drops it, any other message pushes it back at the head exactly while
the incremented `retryCount` is below `maxRetries` and drops it otherwise;
`isExecuting` is cleared and the deferred re-entry is scheduled in every
case. -/
theorem dequeue_failure_policy :
    ∀ (c : QueuedCommand) (rest : List QueuedCommand) (msg : String),
      (jsIncludes msg "Not connected" = true →
        dequeueRun ⟨c :: rest, false, false⟩ (CmdOutcome.err msg) =
          (⟨rest, false, false⟩, true)) ∧
      (jsIncludes msg "Not connected" = false → c.retryCount + 1 < c.maxRetries →
        dequeueRun ⟨c :: rest, false, false⟩ (CmdOutcome.err msg) =
          (⟨{ c with retryCount := c.retryCount + 1 } :: rest, false, false⟩, true)) ∧
      (jsIncludes msg "Not connected" = false → c.maxRetries ≤ c.retryCount + 1 →
        dequeueRun ⟨c :: rest, false, false⟩ (CmdOutcome.err msg) =
          (⟨rest, false, false⟩, true)) := by
  intro c rest msg
  have hb : dequeueBegin ⟨c :: rest, false, false⟩ =
      some ({ c with retryCount := c.retryCount + 1 }, ⟨rest, true, false⟩) := rfl
  refine ⟨?_, ?_, ?_⟩
  · intro h1
    simp [dequeueRun, hb, dequeueFinish, h1]
  · intro h1 h2
    simp [dequeueRun, hb, dequeueFinish, h1, h2]
  · intro h1 h2
    simp [dequeueRun, hb, dequeueFinish, h1, Nat.not_lt.mpr h2]

/-- C3 witness: the theorem applied to a command with `maxRetries` 5 failing
with "Error: Not connected" (dropped) and "Device busy" (retried at head),
and to a command at its retry cap failing with "Device busy" (dropped). -/
theorem dequeue_failure_policy_witness :
    jsIncludes "Error: Not connected" "Not connected" = true ∧
    dequeueRun ⟨[⟨"setAngle", 5, 0⟩], false, false⟩ (CmdOutcome.err "Error: Not connected") =
      (⟨[], false, false⟩, true) ∧
    jsIncludes "Device busy" "Not connected" = false ∧
    dequeueRun ⟨[⟨"setAngle", 5, 0⟩], false, false⟩ (CmdOutcome.err "Device busy") =
      (⟨[⟨"setAngle", 5, 1⟩], false, false⟩, true) ∧
    dequeueRun ⟨[⟨"identifyBlind", 1, 0⟩], false, false⟩ (CmdOutcome.err "Device busy") =
      (⟨[], false, false⟩, true) :=
  ⟨by decide,
   (dequeue_failure_policy ⟨"setAngle", 5, 0⟩ [] "Error: Not connected").1 (by decide),
   by decide,
   (dequeue_failure_policy ⟨"setAngle", 5, 0⟩ [] "Device busy").2.1 (by decide) (by decide),
   (dequeue_failure_policy ⟨"identifyBlind", 1, 0⟩ [] "Device busy").2.2 (by decide) (by decide)⟩

theorem blindStep_unlocked_matches (configured : String) (maxR : Nat) (s : BlindUnlockState)
    (op : BlindOp)
    (hs : s.isUnlocked = true → ∃ p, s.passkey = some p ∧ matchesPasskey configured p = true) :
    (blindStep configured maxR s op).1.isUnlocked = true →
      ∃ p, (blindStep configured maxR s op).1.passkey = some p ∧
        matchesPasskey configured p = true := by
  cases op with
  | passkeyNotif buffer =>
      by_cases h1 : (s.passkey == some (bytesToHex buffer)) = true
      · simpa [blindStep, onPasskeyChanged, h1] using hs
      · by_cases h2 : matchesPasskey configured (bytesToHex buffer) = true
        · intro _
          exact ⟨bytesToHex buffer, by simp [blindStep, onPasskeyChanged, h1, h2], h2⟩
        · intro h
          simp [blindStep, onPasskeyChanged, h1, h2] at h
  | parentConnect =>
      intro h
      simp [blindStep] at h
  | disconnectCleanup =>
      intro h
      simp [blindStep] at h
  | unlockAttempt =>
      simp only [blindStep]
      split
      · intro h
        simp at h
      · exact fun h => hs h
  | startUnlockTimer =>
      simp only [blindStep]
      split
      · exact fun h => hs h
      · exact fun h => hs h

theorem runBlind_unlocked_matches (configured : String) (maxR : Nat) :
    ∀ (ops : List BlindOp) (s : BlindUnlockState),
      (s.isUnlocked = true → ∃ p, s.passkey = some p ∧ matchesPasskey configured p = true) →
      (runBlind configured maxR s ops).isUnlocked = true →
        ∃ p, (runBlind configured maxR s ops).passkey = some p ∧
          matchesPasskey configured p = true := by
  intro ops
  induction ops with
  | nil => exact fun s hs => hs
  | cons op rest ih =>
      exact fun s hs => ih _ (blindStep_unlocked_matches configured maxR s op hs)

theorem blindStep_passkey_src (configured : String) (maxR : Nat) (s : BlindUnlockState)
    (op : BlindOp) :
    (blindStep configured maxR s op).1.passkey = s.passkey ∨
    ∃ buffer, op = BlindOp.passkeyNotif buffer ∧
      (blindStep configured maxR s op).1.passkey = some (bytesToHex buffer) := by
  cases op with
  | passkeyNotif buffer =>
      by_cases h1 : (s.passkey == some (bytesToHex buffer)) = true
      · left
        simp [blindStep, onPasskeyChanged, h1]
      · right
        refine ⟨buffer, rfl, ?_⟩
        by_cases h2 : matchesPasskey configured (bytesToHex buffer) = true <;>
          simp [blindStep, onPasskeyChanged, h1, h2]
  | parentConnect => left; rfl
  | disconnectCleanup => left; rfl
  | unlockAttempt =>
      left
      simp only [blindStep]
      split <;> rfl
  | startUnlockTimer =>
      left
      simp only [blindStep]
      split <;> rfl

theorem runBlind_passkey_origin (configured : String) (maxR : Nat) :
    ∀ (ops : List BlindOp) (s : BlindUnlockState) (p : String),
      (runBlind configured maxR s ops).passkey = some p →
      s.passkey = some p ∨
        ∃ buffer, BlindOp.passkeyNotif buffer ∈ ops ∧ bytesToHex buffer = p := by
  intro ops
  induction ops with
  | nil => exact fun s p h => Or.inl h
  | cons op rest ih =>
      intro s p h
      rcases ih _ p h with hmid | ⟨buffer, hmem, hval⟩
      · rcases blindStep_passkey_src configured maxR s op with heq | ⟨buffer, hop, hval⟩
        · exact Or.inl (heq.symm.trans hmid)
        · subst hop
          exact Or.inr ⟨buffer, by simp, Option.some.inj (hval.symm.trans hmid)⟩
      · exact Or.inr ⟨buffer, List.mem_cons_of_mem _ hmem, hval⟩

/-- C4 (amended): over every trace of operations on a `Blind`, `isUnlocked`
is true only if some Passkey notification was received whose hex rendering
matched the configured passkey followed by "00" (case-insensitively); and a
matching notification *whose hex differs from the stored echo* resets the
attempt counter to 0, cancels the unlock timer, and emits `unlocked`. -/
theorem isUnlocked_requires_matching_passkey :
    (∀ (configured : String) (maxR : Nat) (ops : List BlindOp),
        (runBlind configured maxR blindInit ops).isUnlocked = true →
        ∃ buffer, BlindOp.passkeyNotif buffer ∈ ops ∧
          matchesPasskey configured (bytesToHex buffer) = true) ∧
    (∀ (configured : String) (s : BlindUnlockState) (buffer : List Nat),
        s.passkey ≠ some (bytesToHex buffer) →
        matchesPasskey configured (bytesToHex buffer) = true →
        onPasskeyChanged configured s buffer =
          ({ passkey := some (bytesToHex buffer), isUnlocked := true,
             unlockAttempts := 0, unlockTimer := false },
           ["passkey-changed", "unlocked"])) := by
  constructor
  · intro configured maxR ops hu
    have hinit : blindInit.isUnlocked = true →
        ∃ p, blindInit.passkey = some p ∧ matchesPasskey configured p = true := by
      intro h
      simp [blindInit] at h
    obtain ⟨p, hp, hm⟩ := runBlind_unlocked_matches configured maxR ops blindInit hinit hu
    rcases runBlind_passkey_origin configured maxR ops blindInit p hp with hnone | ⟨buffer, hmem, hval⟩
    · simp [blindInit] at hnone
    · exact ⟨buffer, hmem, by rw [hval]; exact hm⟩
  · intro configured s buffer hne hmatch
    have h1 : (s.passkey == some (bytesToHex buffer)) = false := beq_eq_false_iff_ne.mpr hne
    simp [onPasskeyChanged, h1, hmatch]

/-- C4 witness: the theorem applied to the spec's unlock scenario — passkey
"000102030405" echoed as `00 01 02 03 04 05 00`. -/
theorem isUnlocked_requires_matching_passkey_witness :
    (∃ buffer, BlindOp.passkeyNotif buffer ∈ [BlindOp.passkeyNotif [0, 1, 2, 3, 4, 5, 0]] ∧
        matchesPasskey "000102030405" (bytesToHex buffer) = true) ∧
    onPasskeyChanged "000102030405" blindInit [0, 1, 2, 3, 4, 5, 0] =
      ({ passkey := some (bytesToHex [0, 1, 2, 3, 4, 5, 0]), isUnlocked := true,
         unlockAttempts := 0, unlockTimer := false }, ["passkey-changed", "unlocked"]) :=
  ⟨isUnlocked_requires_matching_passkey.1 "000102030405" 5
      [BlindOp.passkeyNotif [0, 1, 2, 3, 4, 5, 0]] (by decide),
   isUnlocked_requires_matching_passkey.2 "000102030405" blindInit [0, 1, 2, 3, 4, 5, 0]
      (by decide) (by decide)⟩

/-- C4 counterexample: after the trace [matching notification, reconnect,
unlock attempt] the stored echo already equals the matching hex and the
blind is locked with one attempt recorded; a further *matching* Passkey
notification then changes nothing and emits no event, so the claim's
unconditional "on such a notification the counter is reset and `unlocked`
is emitted" fails at this input. -/
theorem unlocked_emit_counterexample :
    matchesPasskey "000102030405" (bytesToHex [0, 1, 2, 3, 4, 5, 0]) = true ∧
    (runBlind "000102030405" 5 blindInit
        [BlindOp.passkeyNotif [0, 1, 2, 3, 4, 5, 0], BlindOp.parentConnect,
         BlindOp.unlockAttempt]).isUnlocked = false ∧
    onPasskeyChanged "000102030405"
        (runBlind "000102030405" 5 blindInit
          [BlindOp.passkeyNotif [0, 1, 2, 3, 4, 5, 0], BlindOp.parentConnect,
           BlindOp.unlockAttempt]) [0, 1, 2, 3, 4, 5, 0] =
      (runBlind "000102030405" 5 blindInit
        [BlindOp.passkeyNotif [0, 1, 2, 3, 4, 5, 0], BlindOp.parentConnect,
         BlindOp.unlockAttempt], []) ∧
    (runBlind "000102030405" 5 blindInit
        [BlindOp.passkeyNotif [0, 1, 2, 3, 4, 5, 0], BlindOp.parentConnect,
         BlindOp.unlockAttempt]).unlockAttempts = 1 := by
  decide

end Bt2Mqtt
